import Mathlib

/-!
Shallow embedding of the USD/MAD FX Value-at-Risk prototype
(src/prototype.py) and proofs of the specification claims.

Modelling conventions:
- Monetary amounts entering validation are rationals; the numeric pipeline
  itself works over the real numbers (the ideal semantics of the float
  arithmetic of the source, where every operation is total and exact).
- Dates are modelled as already parsed calendar days (integers counting
  days), so the horizon in days is their difference, exactly as
  pandas to_datetime subtraction yields in the source; string parsing and
  the InvalidDate case are outside the scope of the claims treated here.
- External library calls (the yfinance downloads, the scipy Student-t
  inverse CDF t.ppf, the arch EGARCH fit) are inputs of the embedded
  pipeline: a MarketEnv record carries the fetched quote, the fetched
  historical table, the fit function and the quantile function. The
  pipeline body itself is translated line by line from calculer_var.
- Float NaN semantics, where a claim is about NaN, is modelled separately
  by the type Fl below (a real number or NaN) with the comparison and
  arithmetic rules that Python and numpy floats follow at NaN.
-/

/-- Error raised by the pipeline, one constructor per distinct raise site
or error return of the source (the French message it stands for is noted).
The spec groups them into its taxonomy via the predicates further down. -/
inductive PipelineError where
  /-- raise in validate_inputs: le montant doit etre positif -/
  | montantNonPositif : PipelineError
  /-- raise in validate_inputs: la date echeance doit etre posterieure -/
  | dateOrdre : PipelineError
  /-- raise in validate_inputs: horizon d au moins 1 jour -/
  | horizonTropCourt : PipelineError
  /-- error string returned by get_taux_usd_mad -/
  | tauxIndisponible : PipelineError
  /-- raise: impossible de recuperer les donnees historiques (empty table) -/
  | histIndisponible : PipelineError
  /-- raise: donnees historiques insuffisantes, moins de 250 observations -/
  | histInsuffisant : PipelineError
  /-- the arch fit raised (ModelFitFailure in the spec taxonomy) -/
  | fitEchec : PipelineError
deriving DecidableEq, Repr

/-- Spec taxonomy: the InvalidAmount kind. -/
def PipelineError.isInvalidAmount (e : PipelineError) : Prop :=
  e = PipelineError.montantNonPositif

/-- Spec taxonomy: the InvalidHorizon kind covers both the reversed-order
raise and the horizon-below-one-day raise of validate_inputs. -/
def PipelineError.isInvalidHorizon (e : PipelineError) : Prop :=
  e = PipelineError.dateOrdre ∨ e = PipelineError.horizonTropCourt

/-- Spec taxonomy: the DataUnavailable kind covers the quote fetch failure
and both historical-data failures. -/
def PipelineError.isDataUnavailable (e : PipelineError) : Prop :=
  e = PipelineError.tauxIndisponible ∨ e = PipelineError.histIndisponible ∨
    e = PipelineError.histInsuffisant

instance (e : PipelineError) : Decidable e.isInvalidAmount := by
  unfold PipelineError.isInvalidAmount; infer_instance

instance (e : PipelineError) : Decidable e.isInvalidHorizon := by
  unfold PipelineError.isInvalidHorizon; infer_instance

instance (e : PipelineError) : Decidable e.isDataUnavailable := by
  unfold PipelineError.isDataUnavailable; infer_instance

instance {ε α : Type} [DecidableEq ε] [DecidableEq α] :
    DecidableEq (Except ε α) := fun a b =>
  match a, b with
  | Except.error x, Except.error y =>
      if h : x = y then isTrue (by rw [h])
      else isFalse (by intro hc; injection hc; contradiction)
  | Except.error _, Except.ok _ => isFalse (fun hc => Except.noConfusion hc)
  | Except.ok _, Except.error _ => isFalse (fun hc => Except.noConfusion hc)
  | Except.ok x, Except.ok y =>
      if h : x = y then isTrue (by rw [h])
      else isFalse (by intro hc; injection hc; contradiction)

/-- Embedding of validate_inputs (src/prototype.py lines 29 to 42): the
amount must be positive, the settlement date must not precede the invoice
date, and the horizon in days (the difference of the two dates) must be at
least 1; the horizon is returned. Dates arrive already parsed as day
counts. -/
def validate_inputs (montant_usd : ℚ) (date_fact date_ech : ℤ) :
    Except PipelineError ℤ :=
  if montant_usd ≤ 0 then Except.error PipelineError.montantNonPositif
  else if date_ech < date_fact then Except.error PipelineError.dateOrdre
  else if date_ech - date_fact < 1 then Except.error PipelineError.horizonTropCourt
  else Except.ok (date_ech - date_fact)

/-- One row of the downloaded historical table: the value in the
Adj Close column (when that column exists) and in the Close column, each
possibly missing (NaN in the source). -/
structure HistRow where
  adjClose : Option ℚ
  close : Option ℚ
deriving DecidableEq, Repr

/-- The historical table returned by the yfinance download: whether the
Adj Close column is present, and the rows. -/
structure HistData where
  hasAdjClose : Bool
  rows : List HistRow
deriving DecidableEq, Repr

/-- Column selection of src/prototype.py line 61: the Adj Close column when
present, otherwise the Close column. -/
def selectPrices (d : HistData) : List (Option ℚ) :=
  if d.hasAdjClose then d.rows.map HistRow.adjClose else d.rows.map HistRow.close

/-- Embedding of pandas dropna on a series: keep the present values. -/
def dropna (l : List (Option ℚ)) : List ℚ :=
  l.filterMap id

/-- Number of missing values in a series. -/
def countMissing (l : List (Option ℚ)) : ℕ :=
  (l.filter Option.isNone).length

/-- Embedding of the historical-data acquisition checks of calculer_var
(src/prototype.py lines 58 to 64): an empty table fails, then the price
column is selected, missing values are dropped, and fewer than 250
remaining observations fail; otherwise the cleaned series is returned. -/
def fetchHistoricalSeries (d : HistData) : Except PipelineError (List ℚ) :=
  if d.rows.isEmpty then Except.error PipelineError.histIndisponible
  else if (dropna (selectPrices d)).length < 250 then
    Except.error PipelineError.histInsuffisant
  else Except.ok (dropna (selectPrices d))

/-- Helper: validate_inputs only succeeds with a horizon of at least one
day, equal to the day difference of the dates. -/
theorem validate_inputs_ok_iff (montant_usd : ℚ) (date_fact date_ech : ℤ)
    (h : ℤ) :
    validate_inputs montant_usd date_fact date_ech = Except.ok h ↔
      0 < montant_usd ∧ 1 ≤ date_ech - date_fact ∧ h = date_ech - date_fact := by
  unfold validate_inputs
  split_ifs with h1 h2 h3
  · constructor
    · intro hc; exact hc.elim
    · rintro ⟨hm, -, -⟩; exact absurd h1 (not_le.mpr hm)
  · constructor
    · intro hc; exact hc.elim
    · rintro ⟨-, hd, -⟩; omega
  · constructor
    · intro hc; exact hc.elim
    · rintro ⟨-, hd, -⟩; omega
  · constructor
    · intro hc
      injection hc with hc
      exact ⟨not_le.mp h1, by omega, hc.symm⟩
    · rintro ⟨-, -, rfl⟩; rfl

/-- Lower clamp bound of src/prototype.py line 78: minimal volatility for a
0.4 percent daily VaR, as a decimal, with the fixed 95 percent Student-t
quantile constant 2.015 of the source. -/
noncomputable def volMin : ℝ := 0.4 / 100 / 2.015

/-- Upper clamp bound of src/prototype.py line 79: maximal volatility for a
0.6 percent daily VaR, as a decimal. -/
noncomputable def volMax : ℝ := 0.6 / 100 / 2.015

/-- Plausibility clamp of src/prototype.py line 80, in the ideal real
semantics: vol_current = max(min(vol_current, vol_max), vol_min). -/
noncomputable def clampVolR (v : ℝ) : ℝ :=
  max (min v volMax) volMin

/-- The spec contract computeVaR (section 4.6), translated from the VaR
block of calculer_var (src/prototype.py lines 84 to 89) with the
confidence level as a parameter: the quantile is the absolute value of
the Student-t inverse CDF at 1 - confidence, the daily VaR is quantile
times volatility, and the horizon VaR scales the daily VaR by the square
root of the horizon in days. The inverse CDF is an input (tppf), since
the source delegates it to scipy. -/
noncomputable def computeVaR (tppf : ℝ → ℝ → ℝ) (vol nu : ℝ)
    (horizonDays : ℤ) (confidence : ℝ) : ℝ × ℝ :=
  let quantile := |tppf (1 - confidence) nu|
  let dailyVaR := quantile * vol
  (dailyVaR, dailyVaR * Real.sqrt (horizonDays : ℝ))

/-- Result of the EGARCH fit, as consumed by calculer_var: the last
conditional volatility (in percentage units, line 75) and the fitted
tail parameter nu (line 84). -/
structure FitResult where
  volPct : ℝ
  nu : ℝ

/-- Snapshot of everything calculer_var obtains from outside pure
computation: the current quote fetch outcome (get_taux_usd_mad), the
downloaded historical table, the EGARCH fit viewed as a deterministic
function of the return series with a possible failure, and the scipy
Student-t inverse CDF. -/
structure MarketEnv where
  quote : Except PipelineError ℝ
  hist : HistData
  fitOf : List ℝ → Except PipelineError FitResult
  tppf : ℝ → ℝ → ℝ

/-- Log-return transform of src/prototype.py lines 67 and 68:
np.log(taux / taux.shift(1)).dropna() times 100. The shift-and-drop is
exactly the pairing of each price with its successor. -/
noncomputable def toLogReturnsPct (prices : List ℚ) : List ℝ :=
  (prices.zip prices.tail).map (fun pq => Real.log ((pq.2 : ℝ) / (pq.1 : ℝ)) * 100)

/-- The numeric content of the formatted summary of calculer_var
(the RiskResult of the spec): current rate, horizon, booked amount,
estimated settlement amount, daily and horizon VaR in percent, potential
loss, and the optional stress pair (stressed horizon VaR in percent,
stressed loss). -/
structure Report where
  taux : ℝ
  horizon : ℤ
  montantComptabilise : ℝ
  montantEstime : ℝ
  varJournalierePct : ℝ
  varHorizonPct : ℝ
  pertePotentielle : ℝ
  stress : Option (ℝ × ℝ)

/-- Baseline fields of a report, without the stress pair. -/
def Report.base (r : Report) : ℝ × ℤ × ℝ × ℝ × ℝ × ℝ × ℝ :=
  (r.taux, r.horizon, r.montantComptabilise, r.montantEstime,
    r.varJournalierePct, r.varHorizonPct, r.pertePotentielle)

/-- Embedding of calculer_var (src/prototype.py lines 45 to 122) over a
market snapshot, in the ideal real semantics: validate, fetch the quote,
fetch and check the historical series, compute percentage log returns,
fit, convert the volatility to a decimal and clamp it, compute the
Student-t quantile at probability 0.05 (95 percent confidence), the daily
and horizon VaR, the booked amount, the potential loss and the estimated
settlement amount, then optionally the stress pass at probability 0.01
(99 percent confidence). Every failure is caught by the try block of the
source and surfaces as an error value. -/
noncomputable def calculer_var (montant_usd : ℚ) (date_fact date_ech : ℤ)
    (stress_test : Bool) (env : MarketEnv) : Except PipelineError Report :=
  match validate_inputs montant_usd date_fact date_ech with
  | Except.error e => Except.error e
  | Except.ok horizon =>
    match env.quote with
    | Except.error e => Except.error e
    | Except.ok taux_usd_mad =>
      match fetchHistoricalSeries env.hist with
      | Except.error e => Except.error e
      | Except.ok taux =>
        let returns_pct := toLogReturnsPct taux
        match env.fitOf returns_pct with
        | Except.error e => Except.error e
        | Except.ok fit =>
          let vol_current := clampVolR (fit.volPct / 100)
          let quantile_t := |env.tppf 0.05 fit.nu|
          let var_journaliere := quantile_t * vol_current
          let var_journaliere_pct := var_journaliere * 100
          let var_horizon := var_journaliere * Real.sqrt (horizon : ℝ)
          let var_horizon_pct := var_horizon * 100
          let montant_comptabilise := (montant_usd : ℝ) * taux_usd_mad
          let perte_potentielle := var_horizon * (montant_usd : ℝ) * taux_usd_mad
          let montant_estime := montant_comptabilise - perte_potentielle
          let stressFields :=
            if stress_test then
              let quantile_t_stress := |env.tppf 0.01 fit.nu|
              let var_horizon_stress :=
                quantile_t_stress * vol_current * Real.sqrt (horizon : ℝ)
              some (var_horizon_stress * 100,
                var_horizon_stress * (montant_usd : ℝ) * taux_usd_mad)
            else none
          Except.ok
            { taux := taux_usd_mad
              horizon := horizon
              montantComptabilise := montant_comptabilise
              montantEstime := montant_estime
              varJournalierePct := var_journaliere_pct
              varHorizonPct := var_horizon_pct
              pertePotentielle := perte_potentielle
              stress := stressFields }

/-- C1: on a successful run with nu above 2 and a valid horizon, the VaR
figures of the pipeline coincide with computeVaR (at the baseline 95
percent confidence) applied to the clamped volatility, and the currency
figures satisfy potentialLoss = horizonVaR times amountUSD times
currentRate, bookedAmount = amountUSD times currentRate, and
estimatedSettlementAmount = bookedAmount minus potentialLoss. The
percentage fields of the report are the decimal quantities times 100. -/
theorem calculer_var_matches_computeVaR (montant_usd : ℚ)
    (date_fact date_ech : ℤ) (stress_test : Bool) (env : MarketEnv)
    (horizon : ℤ) (taux : ℝ) (prices : List ℚ) (fit : FitResult)
    (hnu : 2 < fit.nu)
    (hv : validate_inputs montant_usd date_fact date_ech = Except.ok horizon)
    (hq : env.quote = Except.ok taux)
    (hh : fetchHistoricalSeries env.hist = Except.ok prices)
    (hf : env.fitOf (toLogReturnsPct prices) = Except.ok fit) :
    ∃ r : Report,
      calculer_var montant_usd date_fact date_ech stress_test env = Except.ok r ∧
      r.horizon = horizon ∧ 1 ≤ r.horizon ∧ r.taux = taux ∧
      r.varJournalierePct / 100 =
        (computeVaR env.tppf (clampVolR (fit.volPct / 100)) fit.nu horizon 0.95).1 ∧
      r.varHorizonPct / 100 =
        (computeVaR env.tppf (clampVolR (fit.volPct / 100)) fit.nu horizon 0.95).2 ∧
      r.pertePotentielle = (r.varHorizonPct / 100) * (montant_usd : ℝ) * r.taux ∧
      r.montantComptabilise = (montant_usd : ℝ) * r.taux ∧
      r.montantEstime = r.montantComptabilise - r.pertePotentielle := by
  have hhor : 1 ≤ horizon := by
    rcases (validate_inputs_ok_iff montant_usd date_fact date_ech horizon).mp hv
      with ⟨-, hd, rfl⟩
    exact hd
  refine ⟨{ taux := taux
            horizon := horizon
            montantComptabilise := (montant_usd : ℝ) * taux
            montantEstime := (montant_usd : ℝ) * taux -
              |env.tppf 0.05 fit.nu| * clampVolR (fit.volPct / 100) *
                Real.sqrt (horizon : ℝ) * (montant_usd : ℝ) * taux
            varJournalierePct :=
              |env.tppf 0.05 fit.nu| * clampVolR (fit.volPct / 100) * 100
            varHorizonPct :=
              |env.tppf 0.05 fit.nu| * clampVolR (fit.volPct / 100) *
                Real.sqrt (horizon : ℝ) * 100
            pertePotentielle :=
              |env.tppf 0.05 fit.nu| * clampVolR (fit.volPct / 100) *
                Real.sqrt (horizon : ℝ) * (montant_usd : ℝ) * taux
            stress :=
              if stress_test then
                some (|env.tppf 0.01 fit.nu| * clampVolR (fit.volPct / 100) *
                    Real.sqrt (horizon : ℝ) * 100,
                  |env.tppf 0.01 fit.nu| * clampVolR (fit.volPct / 100) *
                    Real.sqrt (horizon : ℝ) * (montant_usd : ℝ) * taux)
              else none },
    ?_, rfl, hhor, rfl, ?_, ?_, ?_, rfl, rfl⟩
  · unfold calculer_var
    simp only [hv, hq, hh, hf]
  · show (|env.tppf 0.05 fit.nu| * clampVolR (fit.volPct / 100) * 100) / 100 = _
    unfold computeVaR
    norm_num
  · show (|env.tppf 0.05 fit.nu| * clampVolR (fit.volPct / 100) *
      Real.sqrt (horizon : ℝ) * 100) / 100 = _
    unfold computeVaR
    norm_num
  · show |env.tppf 0.05 fit.nu| * clampVolR (fit.volPct / 100) *
      Real.sqrt (horizon : ℝ) * (montant_usd : ℝ) * taux =
      (|env.tppf 0.05 fit.nu| * clampVolR (fit.volPct / 100) *
        Real.sqrt (horizon : ℝ) * 100) / 100 * (montant_usd : ℝ) * taux
    ring

/-- Concrete historical table for witnesses: 250 rows, no Adj Close
column, every close present and equal to 1. -/
def wHist : HistData :=
  { hasAdjClose := false
    rows := List.replicate 250 { adjClose := none, close := some 1 } }

/-- Concrete market snapshot for witnesses: quote 10, the table above, a
fit returning volatility 0.3 percent with nu = 3, and a quantile function
constantly -2. -/
noncomputable def wEnv : MarketEnv :=
  { quote := Except.ok 10
    hist := wHist
    fitOf := fun _ => Except.ok { volPct := 0.3, nu := 3 }
    tppf := fun _ _ => -2 }

set_option maxRecDepth 10000 in
theorem calculer_var_matches_computeVaR_witness :
    ∃ r : Report,
      calculer_var 100 0 61 true wEnv = Except.ok r ∧
      r.horizon = 61 ∧ 1 ≤ r.horizon ∧ r.taux = 10 ∧
      r.varJournalierePct / 100 =
        (computeVaR wEnv.tppf (clampVolR ((0.3 : ℝ) / 100)) 3 61 0.95).1 ∧
      r.varHorizonPct / 100 =
        (computeVaR wEnv.tppf (clampVolR ((0.3 : ℝ) / 100)) 3 61 0.95).2 ∧
      r.pertePotentielle = (r.varHorizonPct / 100) * ((100 : ℚ) : ℝ) * r.taux ∧
      r.montantComptabilise = ((100 : ℚ) : ℝ) * r.taux ∧
      r.montantEstime = r.montantComptabilise - r.pertePotentielle :=
  calculer_var_matches_computeVaR 100 0 61 true wEnv 61 10
    (List.replicate 250 1) { volPct := 0.3, nu := 3 }
    (by norm_num) (by decide) rfl (by decide) rfl

/-- C3: for a nonnegative volatility, the horizon VaR of computeVaR is
monotone non-decreasing in the horizon for any fixed confidence, and for a
quantile function with the shape of the Student-t inverse CDF on the left
half (monotone non-decreasing and nonpositive below probability one half),
both the daily and the horizon VaR are monotone non-decreasing in the
confidence level on the open interval between one half and one. -/
theorem computeVaR_monotone (tppf : ℝ → ℝ → ℝ) (vol nu : ℝ)
    (hvol : 0 ≤ vol)
    (hmono : ∀ p q : ℝ, 0 < p → p ≤ q → q < 1 / 2 → tppf p nu ≤ tppf q nu)
    (hneg : ∀ p : ℝ, 0 < p → p < 1 / 2 → tppf p nu ≤ 0) :
    (∀ (confidence : ℝ) (h1 h2 : ℤ), h1 ≤ h2 →
      (computeVaR tppf vol nu h1 confidence).2 ≤
        (computeVaR tppf vol nu h2 confidence).2) ∧
    (∀ (hd : ℤ) (c1 c2 : ℝ), 1 / 2 < c1 → c1 ≤ c2 → c2 < 1 →
      (computeVaR tppf vol nu hd c1).1 ≤ (computeVaR tppf vol nu hd c2).1 ∧
      (computeVaR tppf vol nu hd c1).2 ≤ (computeVaR tppf vol nu hd c2).2) := by
  constructor
  · intro confidence h1 h2 hh
    unfold computeVaR
    dsimp only
    have hd : 0 ≤ |tppf (1 - confidence) nu| * vol :=
      mul_nonneg (abs_nonneg _) hvol
    exact mul_le_mul_of_nonneg_left
      (Real.sqrt_le_sqrt (by exact_mod_cast hh)) hd
  · intro hd c1 c2 hc1 hcc hc2
    unfold computeVaR
    dsimp only
    have h1pos : (0 : ℝ) < 1 - c2 := by linarith
    have hle : 1 - c2 ≤ 1 - c1 := by linarith
    have hhalf : 1 - c1 < 1 / 2 := by linarith
    have ht := hmono (1 - c2) (1 - c1) h1pos hle hhalf
    have htn := hneg (1 - c1) (by linarith) hhalf
    have habs : |tppf (1 - c1) nu| ≤ |tppf (1 - c2) nu| := by
      rw [abs_of_nonpos htn, abs_of_nonpos (le_trans ht htn)]
      linarith
    have hdaily : |tppf (1 - c1) nu| * vol ≤ |tppf (1 - c2) nu| * vol :=
      mul_le_mul_of_nonneg_right habs hvol
    exact ⟨hdaily, mul_le_mul_of_nonneg_right hdaily (Real.sqrt_nonneg _)⟩

theorem computeVaR_monotone_witness :
    (computeVaR (fun p _ => p - 1 / 2) 1 3 4 0.95).2 ≤
      (computeVaR (fun p _ => p - 1 / 2) 1 3 9 0.95).2 ∧
    (computeVaR (fun p _ => p - 1 / 2) 1 3 4 0.6).1 ≤
      (computeVaR (fun p _ => p - 1 / 2) 1 3 4 0.7).1 :=
  ⟨(computeVaR_monotone (fun p _ => p - 1 / 2) 1 3 (by norm_num)
      (fun p q hp hpq hq => by dsimp only; linarith)
      (fun p hp hq => by dsimp only; linarith)).1 0.95 4 9 (by norm_num),
    ((computeVaR_monotone (fun p _ => p - 1 / 2) 1 3 (by norm_num)
      (fun p q hp hpq hq => by dsimp only; linarith)
      (fun p hp hq => by dsimp only; linarith)).2 4 0.6 0.7
        (by norm_num) (by norm_num) (by norm_num)).1⟩

/-- Idealized machine float for the NaN claims: a real value or NaN.
Infinities play no role in the inputs the claims below exercise. -/
inductive Fl where
  | nan : Fl
  | val : ℝ → Fl

/-- Ordered comparison of Python and numpy floats: any comparison with NaN
is false. -/
noncomputable def flLt (a b : Fl) : Bool :=
  match a, b with
  | Fl.val x, Fl.val y => decide (x < y)
  | _, _ => false

theorem flLt_val (x y : ℝ) : flLt (Fl.val x) (Fl.val y) = decide (x < y) := rfl

theorem flLt_nan_right (a : Fl) : flLt a Fl.nan = false := by cases a <;> rfl

theorem flLt_nan_left (b : Fl) : flLt Fl.nan b = false := by cases b <;> rfl

/-- The Python builtin min of two floats: the second argument is returned
when it compares strictly below the first, otherwise the first argument is
returned. In particular min(NaN, y) = NaN. -/
noncomputable def pyMin (a b : Fl) : Fl := if flLt b a then b else a

/-- The Python builtin max of two floats: the second argument is returned
when it compares strictly above the first, otherwise the first argument is
returned. In particular max(NaN, y) = NaN. -/
noncomputable def pyMax (a b : Fl) : Fl := if flLt a b then b else a

/-- Plausibility clamp of src/prototype.py line 80 in float semantics:
max(min(vol_current, vol_max), vol_min) with the Python builtins. -/
noncomputable def clampVol (v : Fl) : Fl :=
  pyMax (pyMin v (Fl.val volMax)) (Fl.val volMin)

/-- A float lies in the clamp band: it is an actual value between the two
bounds; NaN lies in no band. -/
def Fl.inBand : Fl → Prop
  | Fl.nan => False
  | Fl.val x => volMin ≤ x ∧ x ≤ volMax

theorem volMin_le_volMax : volMin ≤ volMax := by
  unfold volMin volMax; norm_num

/-- On actual values the float clamp agrees with the ideal real clamp. -/
theorem clampVol_val (x : ℝ) : clampVol (Fl.val x) = Fl.val (clampVolR x) := by
  unfold clampVol clampVolR
  rcases le_or_lt x volMax with hx | hx
  · have h1 : pyMin (Fl.val x) (Fl.val volMax) = Fl.val x := by
      unfold pyMin
      rw [flLt_val]
      simp [not_lt.mpr hx]
    rw [h1, min_eq_left hx]
    rcases le_or_lt volMin x with hx2 | hx2
    · have h2 : pyMax (Fl.val x) (Fl.val volMin) = Fl.val x := by
        unfold pyMax
        rw [flLt_val]
        simp [not_lt.mpr hx2]
      rw [h2, max_eq_left hx2]
    · have h2 : pyMax (Fl.val x) (Fl.val volMin) = Fl.val volMin := by
        unfold pyMax
        rw [flLt_val]
        simp [hx2]
      rw [h2, max_eq_right (le_of_lt hx2)]
  · have h1 : pyMin (Fl.val x) (Fl.val volMax) = Fl.val volMax := by
      unfold pyMin
      rw [flLt_val]
      simp [hx]
    have h2 : pyMax (Fl.val volMax) (Fl.val volMin) = Fl.val volMax := by
      unfold pyMax
      rw [flLt_val]
      simp [not_lt.mpr volMin_le_volMax]
    rw [h1, h2, min_eq_right (le_of_lt hx), max_eq_left volMin_le_volMax]

/-- C2 counterexample: a NaN input passes through the clamp unchanged, so
the clamped output does not lie in the band. The claim that every input,
including NaN, is mapped into the closed interval fails on the code: the
Python builtins min and max return their first argument when the second
does not compare, so both propagate a NaN first argument. -/
theorem clampVol_nan_not_inBand :
    clampVol Fl.nan = Fl.nan ∧ ¬ (clampVol Fl.nan).inBand := by
  have h : clampVol Fl.nan = Fl.nan := by
    unfold clampVol
    have h1 : pyMin Fl.nan (Fl.val volMax) = Fl.nan := by
      unfold pyMin
      rw [flLt_nan_right]
      simp
    rw [h1]
    unfold pyMax
    rw [flLt_nan_left]
    simp
  exact ⟨h, by rw [h]; exact fun hc => hc⟩

/-- C2 amended: on every actual (finite, possibly non-positive) input the
clamp output lies in the closed band, and the clamp fixes both bounds;
a NaN input is the sole exception and propagates unchanged. -/
theorem clampVol_inBand :
    (∀ x : ℝ, (clampVol (Fl.val x)).inBand) ∧
    clampVol (Fl.val volMin) = Fl.val volMin ∧
    clampVol (Fl.val volMax) = Fl.val volMax := by
  have hb : ∀ x : ℝ, (clampVol (Fl.val x)).inBand := by
    intro x
    rw [clampVol_val]
    unfold Fl.inBand clampVolR
    constructor
    · exact le_max_right _ _
    · exact max_le (min_le_right _ _) volMin_le_volMax
  refine ⟨hb, ?_, ?_⟩
  · rw [clampVol_val]
    unfold clampVolR
    rw [min_eq_left volMin_le_volMax, max_self]
  · rw [clampVol_val]
    unfold clampVolR
    rw [min_self, max_eq_left volMin_le_volMax]

/-- Absolute value on floats: NaN propagates. -/
noncomputable def absF : Fl → Fl
  | Fl.nan => Fl.nan
  | Fl.val x => Fl.val |x|

/-- Multiplication on floats restricted to the values arising here: any
NaN operand yields NaN. -/
noncomputable def mulF : Fl → Fl → Fl
  | Fl.val a, Fl.val b => Fl.val (a * b)
  | _, _ => Fl.nan

/-- Subtraction on floats restricted to the values arising here: any NaN
operand yields NaN. -/
noncomputable def subF : Fl → Fl → Fl
  | Fl.val a, Fl.val b => Fl.val (a - b)
  | _, _ => Fl.nan

/-- Square root on floats: NaN propagates, a negative argument gives NaN. -/
noncomputable def sqrtF : Fl → Fl
  | Fl.nan => Fl.nan
  | Fl.val x => if x < 0 then Fl.nan else Fl.val (Real.sqrt x)

theorem mulF_nan_left (b : Fl) : mulF Fl.nan b = Fl.nan := by cases b <;> rfl

theorem subF_nan_right (a : Fl) : subF a Fl.nan = Fl.nan := by cases a <;> rfl

/-- The numeric quantities computed by the VaR block of calculer_var. -/
structure VarFigures where
  quantile : Fl
  varJournaliere : Fl
  varHorizon : Fl
  montantComptabilise : Fl
  pertePotentielle : Fl
  montantEstime : Fl

/-- The VaR block of calculer_var (src/prototype.py lines 84 to 98) in
float semantics: quantile_t = abs(t.ppf(0.05, dof)), the daily VaR, the
horizon VaR via np.sqrt(horizon), the booked amount, the potential loss
and the estimated settlement amount. The scipy inverse CDF is the input
tppfF (it returns NaN on a degenerate tail parameter). The source checks
none of these quantities for finiteness and has no error path here: the
figures are always produced and flow into the returned summary. -/
noncomputable def varChainF (tppfF : ℝ → Fl → Fl) (vol nu : Fl)
    (horizon : ℤ) (montant taux : Fl) : VarFigures :=
  let quantile_t := absF (tppfF 0.05 nu)
  let var_journaliere := mulF quantile_t vol
  let var_horizon := mulF var_journaliere (sqrtF (Fl.val (horizon : ℝ)))
  let montant_comptabilise := mulF montant taux
  let perte_potentielle := mulF (mulF var_horizon montant) taux
  { quantile := quantile_t
    varJournaliere := var_journaliere
    varHorizon := var_horizon
    montantComptabilise := montant_comptabilise
    pertePotentielle := perte_potentielle
    montantEstime := subF montant_comptabilise perte_potentielle }

/-- C7 counterexample: with a degenerate fit (the scipy inverse CDF
returns NaN, as it does when nu is NaN), the VaR block of the source
does not fail: it produces and returns figures containing NaN. The
quantile, the daily and horizon VaR, the potential loss and the estimated
settlement amount of this concrete run are all NaN, while the run still
yields a result (the booked amount is even a finite value), contradicting
the claim that any non-finite intermediate leads to a NonFiniteResult
failure: no such failure exists anywhere in the code. -/
theorem varChainF_nan_returned :
    (varChainF (fun _ _ => Fl.nan) (Fl.val volMax) Fl.nan 61
        (Fl.val 10000) (Fl.val 10)).varJournaliere = Fl.nan ∧
    (varChainF (fun _ _ => Fl.nan) (Fl.val volMax) Fl.nan 61
        (Fl.val 10000) (Fl.val 10)).varHorizon = Fl.nan ∧
    (varChainF (fun _ _ => Fl.nan) (Fl.val volMax) Fl.nan 61
        (Fl.val 10000) (Fl.val 10)).pertePotentielle = Fl.nan ∧
    (varChainF (fun _ _ => Fl.nan) (Fl.val volMax) Fl.nan 61
        (Fl.val 10000) (Fl.val 10)).montantEstime = Fl.nan ∧
    (varChainF (fun _ _ => Fl.nan) (Fl.val volMax) Fl.nan 61
        (Fl.val 10000) (Fl.val 10)).montantComptabilise =
      Fl.val (10000 * 10) := by
  refine ⟨rfl, rfl, rfl, rfl, rfl⟩

/-- C7 amended: the code performs no finiteness check. Whenever the
quantile evaluation returns NaN, the NaN propagates into the daily VaR,
the horizon VaR, the potential loss and the estimated settlement amount
of the returned figures, while the booked amount stays the finite product
of amount and rate; no error is raised in any case. -/
theorem varChainF_propagates_nan (tppfF : ℝ → Fl → Fl) (vol nu : Fl)
    (horizon : ℤ) (m t : ℝ)
    (hq : tppfF 0.05 nu = Fl.nan) :
    (varChainF tppfF vol nu horizon (Fl.val m) (Fl.val t)).varJournaliere =
      Fl.nan ∧
    (varChainF tppfF vol nu horizon (Fl.val m) (Fl.val t)).varHorizon =
      Fl.nan ∧
    (varChainF tppfF vol nu horizon (Fl.val m) (Fl.val t)).pertePotentielle =
      Fl.nan ∧
    (varChainF tppfF vol nu horizon (Fl.val m) (Fl.val t)).montantEstime =
      Fl.nan ∧
    (varChainF tppfF vol nu horizon (Fl.val m) (Fl.val t)).montantComptabilise =
      Fl.val (m * t) := by
  unfold varChainF
  rw [hq]
  dsimp only
  rw [show absF Fl.nan = Fl.nan from rfl, mulF_nan_left, mulF_nan_left,
    mulF_nan_left]
  exact ⟨rfl, rfl, rfl, subF_nan_right _, rfl⟩

theorem varChainF_propagates_nan_witness :
    (varChainF (fun _ _ => Fl.nan) (Fl.val 1) Fl.nan 61
        (Fl.val 10000) (Fl.val 10)).varJournaliere = Fl.nan ∧
    (varChainF (fun _ _ => Fl.nan) (Fl.val 1) Fl.nan 61
        (Fl.val 10000) (Fl.val 10)).varHorizon = Fl.nan ∧
    (varChainF (fun _ _ => Fl.nan) (Fl.val 1) Fl.nan 61
        (Fl.val 10000) (Fl.val 10)).pertePotentielle = Fl.nan ∧
    (varChainF (fun _ _ => Fl.nan) (Fl.val 1) Fl.nan 61
        (Fl.val 10000) (Fl.val 10)).montantEstime = Fl.nan ∧
    (varChainF (fun _ _ => Fl.nan) (Fl.val 1) Fl.nan 61
        (Fl.val 10000) (Fl.val 10)).montantComptabilise =
      Fl.val (10000 * 10) :=
  varChainF_propagates_nan (fun _ _ => Fl.nan) (Fl.val 1) Fl.nan 61
    10000 10 rfl

/-- C4: validate_inputs fails with the InvalidAmount kind whenever the
amount is non-positive (this check runs first); with a positive amount it
fails with the InvalidHorizon kind whenever the settlement date precedes
the invoice date or the day difference is below 1 (equal dates included);
and otherwise it returns the day difference, an integer of at least 1. -/
theorem validate_inputs_spec (montant_usd : ℚ) (date_fact date_ech : ℤ) :
    (montant_usd ≤ 0 →
      validate_inputs montant_usd date_fact date_ech =
        Except.error PipelineError.montantNonPositif ∧
      PipelineError.isInvalidAmount PipelineError.montantNonPositif) ∧
    (0 < montant_usd → (date_ech < date_fact ∨ date_ech - date_fact < 1) →
      ∃ e, validate_inputs montant_usd date_fact date_ech = Except.error e ∧
        e.isInvalidHorizon) ∧
    (0 < montant_usd → 1 ≤ date_ech - date_fact →
      validate_inputs montant_usd date_fact date_ech =
        Except.ok (date_ech - date_fact) ∧ 1 ≤ date_ech - date_fact) := by
  refine ⟨?_, ?_, ?_⟩
  · intro hm
    unfold validate_inputs
    rw [if_pos hm]
    exact ⟨rfl, rfl⟩
  · intro hm hd
    unfold validate_inputs
    rw [if_neg (not_le.mpr hm)]
    rcases lt_or_le date_ech date_fact with ho | ho
    · rw [if_pos ho]
      exact ⟨PipelineError.dateOrdre, rfl, Or.inl rfl⟩
    · rw [if_neg (not_lt.mpr ho)]
      have hlt : date_ech - date_fact < 1 := by
        rcases hd with h | h
        · omega
        · exact h
      rw [if_pos hlt]
      exact ⟨PipelineError.horizonTropCourt, rfl, Or.inr rfl⟩
  · intro hm hd
    unfold validate_inputs
    rw [if_neg (not_le.mpr hm), if_neg (by omega : ¬ date_ech < date_fact),
      if_neg (by omega : ¬ date_ech - date_fact < 1)]
    exact ⟨rfl, hd⟩

theorem validate_inputs_spec_witness :
    validate_inputs (-1) 0 31 = Except.error PipelineError.montantNonPositif ∧
    (∃ e, validate_inputs 100 0 0 = Except.error e ∧ e.isInvalidHorizon) ∧
    (∃ e, validate_inputs 100 31 0 = Except.error e ∧ e.isInvalidHorizon) ∧
    validate_inputs 100 0 31 = Except.ok 31 := by
  refine ⟨((validate_inputs_spec (-1) 0 31).1 (by norm_num)).1,
    (validate_inputs_spec 100 0 0).2.1 (by norm_num) (Or.inr (by norm_num)),
    (validate_inputs_spec 100 31 0).2.1 (by norm_num) (Or.inl (by norm_num)),
    ?_⟩
  have h := ((validate_inputs_spec 100 0 31).2.2 (by norm_num) (by norm_num)).1
  simpa using h

/-- Helper: the cleaned length plus the number of missing values is the
original length. -/
theorem dropna_length_add (l : List (Option ℚ)) :
    (dropna l).length + countMissing l = l.length := by
  induction l with
  | nil => rfl
  | cons a l ih =>
    cases a with
    | none =>
      simp only [dropna, countMissing, List.filterMap_cons, List.filter_cons]
        at ih ⊢
      simp only [id, Option.isNone_none, if_pos, List.length_cons]
      omega
    | some q =>
      simp only [dropna, countMissing, List.filterMap_cons, List.filter_cons]
        at ih ⊢
      simp only [id, Option.isNone_some, List.length_cons]
      simp only [Bool.false_eq_true, if_false]
      omega

/-- Helper: the pairing of a list with its tail, read at an index, gives
the two consecutive elements there. -/
theorem zip_tail_getElem (l : List ℚ) (i : ℕ) (a b : ℚ)
    (ha : l[i]? = some a) (hb : l[i + 1]? = some b) :
    (l.zip l.tail)[i]? = some (a, b) := by
  induction l generalizing i with
  | nil => simp at ha
  | cons x xs ih =>
    cases xs with
    | nil => cases i <;> simp at hb
    | cons y ys =>
      cases i with
      | zero =>
        simp only [List.getElem?_cons_zero, Option.some_inj] at ha
        simp only [List.getElem?_cons_succ, List.getElem?_cons_zero,
          Option.some_inj] at hb
        subst ha
        subst hb
        simp [List.zip_cons_cons]
      | succ n =>
        rw [List.getElem?_cons_succ] at ha hb
        have := ih n ha hb
        simpa [List.zip_cons_cons] using this

/-- Helper: the return series is one shorter than its price series. -/
theorem toLogReturnsPct_length (l : List ℚ) :
    (toLogReturnsPct l).length = l.length - 1 := by
  unfold toLogReturnsPct
  rw [List.length_map, List.length_zip, List.length_tail]
  omega

/-- C5: over a price series with missing values, the return transform of
the source (select, dropna, log-ratio of consecutive cleaned prices, times
100) yields exactly input length minus 1 minus the missing count many
returns; the return at index i is the log of the ratio of the cleaned
prices at i+1 and i times 100; and with positive cleaned prices every
output element is such a finite real log-ratio (the ideal-real rendering
of NaN freeness). -/
theorem returnTransform_spec (prices : List (Option ℚ))
    (hpos : ∀ q ∈ dropna prices, 0 < q) :
    (toLogReturnsPct (dropna prices)).length =
      prices.length - 1 - countMissing prices ∧
    (∀ (i : ℕ) (a b : ℚ), (dropna prices)[i]? = some a →
      (dropna prices)[i + 1]? = some b →
      (toLogReturnsPct (dropna prices))[i]? =
        some (Real.log ((b : ℝ) / (a : ℝ)) * 100)) ∧
    (∀ x ∈ toLogReturnsPct (dropna prices),
      ∃ a b : ℚ, 0 < a ∧ 0 < b ∧ x = Real.log ((b : ℝ) / (a : ℝ)) * 100) := by
  refine ⟨?_, ?_, ?_⟩
  · have h1 := toLogReturnsPct_length (dropna prices)
    have h2 := dropna_length_add prices
    omega
  · intro i a b ha hb
    unfold toLogReturnsPct
    rw [List.getElem?_map, zip_tail_getElem (dropna prices) i a b ha hb]
    rfl
  · intro x hx
    unfold toLogReturnsPct at hx
    rcases List.mem_map.mp hx with ⟨⟨a, b⟩, hmem, rfl⟩
    have hab := List.of_mem_zip hmem
    exact ⟨a, b, hpos a hab.1, hpos b (List.mem_of_mem_tail hab.2), rfl⟩

theorem returnTransform_spec_witness :
    (toLogReturnsPct (dropna [some 1, none, some 2, some 4])).length = 2 ∧
    (toLogReturnsPct (dropna [some 1, none, some 2, some 4]))[0]? =
      some (Real.log (((2 : ℚ) : ℝ) / ((1 : ℚ) : ℝ)) * 100) := by
  have h := returnTransform_spec [some 1, none, some 2, some 4] (by decide)
  exact ⟨by simpa using h.1, h.2.1 0 1 2 rfl rfl⟩

/-- C6: the historical acquisition fails with a DataUnavailable-kind error
whenever the source returns no rows, and whenever the count of non-missing
prices in the selected column is below 250; with at least 250 usable
prices it succeeds and returns the cleaned selected column; the selected
column is Adj Close when that column is present and Close otherwise. -/
theorem fetchHistoricalSeries_spec (d : HistData) :
    (d.rows = [] →
      fetchHistoricalSeries d =
        Except.error PipelineError.histIndisponible ∧
      PipelineError.isDataUnavailable PipelineError.histIndisponible) ∧
    ((dropna (selectPrices d)).length < 250 →
      ∃ e, fetchHistoricalSeries d = Except.error e ∧ e.isDataUnavailable) ∧
    (250 ≤ (dropna (selectPrices d)).length →
      fetchHistoricalSeries d = Except.ok (dropna (selectPrices d))) ∧
    (d.hasAdjClose = true → selectPrices d = d.rows.map HistRow.adjClose) ∧
    (d.hasAdjClose = false → selectPrices d = d.rows.map HistRow.close) := by
  refine ⟨?_, ?_, ?_, ?_, ?_⟩
  · intro h
    unfold fetchHistoricalSeries
    rw [h]
    exact ⟨rfl, Or.inr (Or.inl rfl)⟩
  · intro hlen
    unfold fetchHistoricalSeries
    by_cases he : d.rows.isEmpty = true
    · rw [if_pos he]
      exact ⟨PipelineError.histIndisponible, rfl, Or.inr (Or.inl rfl)⟩
    · rw [if_neg he, if_pos hlen]
      exact ⟨PipelineError.histInsuffisant, rfl, Or.inr (Or.inr rfl)⟩
  · intro hlen
    have hne : ¬ d.rows.isEmpty = true := by
      cases hr : d.rows with
      | nil =>
        exfalso
        simp [selectPrices, hr, dropna] at hlen
      | cons a l => simp [hr]
    unfold fetchHistoricalSeries
    rw [if_neg hne, if_neg (not_lt.mpr hlen)]
  · intro h
    unfold selectPrices
    rw [h]
    rfl
  · intro h
    unfold selectPrices
    rw [h]
    rfl

/-- Concrete empty table for witnesses. -/
def wHistEmpty : HistData := { hasAdjClose := false, rows := [] }

/-- Concrete one-row table whose only price is missing, for witnesses. -/
def wHistShort : HistData :=
  { hasAdjClose := false, rows := [{ adjClose := none, close := some 1 }] }

/-- Concrete one-row table with an Adj Close column, for witnesses. -/
def wHistAdj : HistData :=
  { hasAdjClose := true, rows := [{ adjClose := some 2, close := some 1 }] }

set_option maxRecDepth 10000 in
theorem fetchHistoricalSeries_spec_witness :
    fetchHistoricalSeries wHistEmpty =
      Except.error PipelineError.histIndisponible ∧
    (∃ e, fetchHistoricalSeries wHistShort = Except.error e ∧
      e.isDataUnavailable) ∧
    fetchHistoricalSeries wHist = Except.ok (dropna (selectPrices wHist)) ∧
    selectPrices wHistAdj = wHistAdj.rows.map HistRow.adjClose :=
  ⟨((fetchHistoricalSeries_spec wHistEmpty).1 rfl).1,
    (fetchHistoricalSeries_spec wHistShort).2.1 (by decide),
    (fetchHistoricalSeries_spec wHist).2.2.1 (by decide),
    (fetchHistoricalSeries_spec wHistAdj).2.2.2.1 rfl⟩

/-- C8: the pipeline entry point is total over every market snapshot and
input: its outcome is either a single error value (the source catches
every raise in the try block and turns it into an error text) or a
complete report, and a report is only produced when every stage
(validation, quote fetch, historical acquisition, fit) succeeded, so no
fragment of the numeric results ever escapes on failure. -/
theorem calculer_var_total (montant_usd : ℚ) (date_fact date_ech : ℤ)
    (stress_test : Bool) (env : MarketEnv) :
    (∃ e, calculer_var montant_usd date_fact date_ech stress_test env =
      Except.error e) ∨
    (∃ (r : Report) (horizon : ℤ) (taux : ℝ) (prices : List ℚ)
        (fit : FitResult),
      calculer_var montant_usd date_fact date_ech stress_test env =
        Except.ok r ∧
      validate_inputs montant_usd date_fact date_ech = Except.ok horizon ∧
      env.quote = Except.ok taux ∧
      fetchHistoricalSeries env.hist = Except.ok prices ∧
      env.fitOf (toLogReturnsPct prices) = Except.ok fit) := by
  cases hv : validate_inputs montant_usd date_fact date_ech with
  | error e =>
    refine Or.inl ⟨e, ?_⟩
    unfold calculer_var
    simp only [hv]
  | ok horizon =>
    cases hq : env.quote with
    | error e =>
      refine Or.inl ⟨e, ?_⟩
      unfold calculer_var
      simp only [hv, hq]
    | ok taux =>
      cases hh : fetchHistoricalSeries env.hist with
      | error e =>
        refine Or.inl ⟨e, ?_⟩
        unfold calculer_var
        simp only [hv, hq, hh]
      | ok prices =>
        cases hf : env.fitOf (toLogReturnsPct prices) with
        | error e =>
          refine Or.inl ⟨e, ?_⟩
          unfold calculer_var
          simp only [hv, hq, hh, hf]
        | ok fit =>
          have hrun : calculer_var montant_usd date_fact date_ech
              stress_test env = Except.ok
              { taux := taux
                horizon := horizon
                montantComptabilise := (montant_usd : ℝ) * taux
                montantEstime := (montant_usd : ℝ) * taux -
                  |env.tppf 0.05 fit.nu| * clampVolR (fit.volPct / 100) *
                    Real.sqrt (horizon : ℝ) * (montant_usd : ℝ) * taux
                varJournalierePct :=
                  |env.tppf 0.05 fit.nu| * clampVolR (fit.volPct / 100) * 100
                varHorizonPct :=
                  |env.tppf 0.05 fit.nu| * clampVolR (fit.volPct / 100) *
                    Real.sqrt (horizon : ℝ) * 100
                pertePotentielle :=
                  |env.tppf 0.05 fit.nu| * clampVolR (fit.volPct / 100) *
                    Real.sqrt (horizon : ℝ) * (montant_usd : ℝ) * taux
                stress :=
                  if stress_test then
                    some (|env.tppf 0.01 fit.nu| *
                        clampVolR (fit.volPct / 100) *
                        Real.sqrt (horizon : ℝ) * 100,
                      |env.tppf 0.01 fit.nu| * clampVolR (fit.volPct / 100) *
                        Real.sqrt (horizon : ℝ) * (montant_usd : ℝ) * taux)
                  else none } := by
            unfold calculer_var
            simp only [hv, hq, hh, hf]
          exact Or.inr ⟨_, horizon, taux, prices, fit, hrun, rfl, rfl, rfl, hf⟩

/-- C9: the pipeline is a pure function of the request and the market
snapshot: two invocations on an identical frozen snapshot and identical
request yield identical results. The embedding makes this literal, since
the source reads nothing but its arguments and the fetched data, holds no
state across calls, and the fit it delegates to is deterministic for a
fixed return series (hence a function in the snapshot). -/
theorem calculer_var_deterministic (m1 m2 : ℚ) (df1 df2 de1 de2 : ℤ)
    (s1 s2 : Bool) (env1 env2 : MarketEnv)
    (hm : m1 = m2) (hdf : df1 = df2) (hde : de1 = de2) (hs : s1 = s2)
    (henv : env1 = env2) :
    calculer_var m1 df1 de1 s1 env1 = calculer_var m2 df2 de2 s2 env2 := by
  subst hm
  subst hdf
  subst hde
  subst hs
  subst henv
  rfl

theorem calculer_var_deterministic_witness :
    calculer_var 100 0 61 true wEnv = calculer_var 100 0 61 true wEnv :=
  calculer_var_deterministic 100 100 0 0 61 61 true true wEnv wEnv
    rfl rfl rfl rfl rfl

/-- C10: toggling the stress flag changes no baseline field: the outcome
with stress enabled and disabled agree on error versus report and on
every baseline report field; with stress disabled the stress pair is
absent, with stress enabled it is present (the two stressed figures are
appended and nothing else changes). -/
theorem calculer_var_stress_frame (montant_usd : ℚ) (date_fact date_ech : ℤ)
    (env : MarketEnv) :
    (calculer_var montant_usd date_fact date_ech true env).map Report.base =
      (calculer_var montant_usd date_fact date_ech false env).map
        Report.base ∧
    (calculer_var montant_usd date_fact date_ech false env).map
        (fun r => r.stress) =
      (calculer_var montant_usd date_fact date_ech false env).map
        (fun _ => (none : Option (ℝ × ℝ))) ∧
    (calculer_var montant_usd date_fact date_ech true env).map
        (fun r => r.stress.isSome) =
      (calculer_var montant_usd date_fact date_ech true env).map
        (fun _ => true) := by
  cases hv : validate_inputs montant_usd date_fact date_ech with
  | error e =>
    refine ⟨?_, ?_, ?_⟩ <;> (unfold calculer_var; simp only [hv]; try rfl)
  | ok horizon =>
    cases hq : env.quote with
    | error e =>
      refine ⟨?_, ?_, ?_⟩ <;>
        (unfold calculer_var; simp only [hv, hq]; try rfl)
    | ok taux =>
      cases hh : fetchHistoricalSeries env.hist with
      | error e =>
        refine ⟨?_, ?_, ?_⟩ <;>
          (unfold calculer_var; simp only [hv, hq, hh]; try rfl)
      | ok prices =>
        cases hf : env.fitOf (toLogReturnsPct prices) with
        | error e =>
          refine ⟨?_, ?_, ?_⟩ <;>
            (unfold calculer_var; simp only [hv, hq, hh, hf]; try rfl)
        | ok fit =>
          refine ⟨?_, ?_, ?_⟩ <;>
            (unfold calculer_var; simp only [hv, hq, hh, hf]; try rfl)
